import Mathlib

/-!
Shallow embedding of the text-humanization pipeline in `ml-service/main.py`
(class `TextHumanizer` and the `/humanize-text` streaming generator).

Texts are modelled as `List Char` (Python `str`), Python floats as `ℚ` where
the source only does exact arithmetic and as `ℝ` where the source takes
square roots (numpy `std`, vector norms).  Fallible Python code (code that
can raise) returns `Option`/`Except`.  The pretrained models and spaCy are
external collaborators: model outputs, embeddings and parsed documents are
parameters of the corresponding definitions.  The server-push event stream
is modelled as a list of events, one per `yield` of the generator
(`data: <json>\n\n` frames become `Event` values, the final `data: [DONE]`
frame becomes `Event.done`).
-/

/-- Python `str.split(sep)` for a one-character separator: splits at every
occurrence of `sep`, keeping empty pieces; the empty string yields `[""]`. -/
def pySplit (sep : Char) : List Char → List (List Char)
  | [] => [[]]
  | c :: rest =>
    if c = sep then [] :: pySplit sep rest
    else
      match pySplit sep rest with
      | [] => [[c]]
      | g :: gs => (c :: g) :: gs

/-- Python `str.strip()`: removes leading and trailing whitespace. -/
def pyStrip (s : List Char) : List Char :=
  ((s.dropWhile Char.isWhitespace).reverse.dropWhile Char.isWhitespace).reverse

/-- Python `sep.join(xs)`. -/
def joinWith (sep : List Char) : List (List Char) → List Char
  | [] => []
  | [x] => x
  | x :: xs => x ++ sep ++ joinWith sep xs

/-- Helper for `splitWs` (Python no-argument `str.split()`): accumulates the
current word (reversed) while scanning. -/
def wsSplitAux : List Char → List Char → List (List Char)
  | [], acc => if acc = [] then [] else [acc.reverse]
  | c :: rest, acc =>
    if c.isWhitespace then
      (if acc = [] then [] else [acc.reverse]) ++ wsSplitAux rest []
    else wsSplitAux rest (c :: acc)

/-- Python `str.split()` with no argument: splits on runs of whitespace and
drops empty pieces. -/
def splitWs (s : List Char) : List (List Char) :=
  wsSplitAux s []

/-- One fuel-indexed step of Python `str.replace(old, new)`: scans left to
right, replacing each non-overlapping occurrence of `pat` and continuing
after the inserted replacement.  `fuel` bounds the number of consumed input
characters so the recursion is structural. -/
def pyReplaceFuel : ℕ → List Char → List Char → List Char → List Char
  | 0, s, _, _ => s
  | fuel + 1, s, pat, rep =>
    match s with
    | [] => []
    | c :: rest =>
      if pat ≠ [] ∧ pat.isPrefixOf s then
        rep ++ pyReplaceFuel fuel (s.drop pat.length) pat rep
      else
        c :: pyReplaceFuel fuel rest pat rep

/-- Python `s.replace(pat, rep)` (all non-overlapping occurrences, left to
right; the replacement text is not rescanned). -/
def pyReplace (s pat rep : List Char) : List Char :=
  pyReplaceFuel s.length s pat rep

/-- Number of non-whitespace characters of a text (the "non-whitespace
content length" used by the structural-rewriter property). -/
def nonWsLen (s : List Char) : ℕ :=
  (s.filter (fun c => !c.isWhitespace)).length

/-- A spaCy token as consumed by the analyzer: its surface text and the
attributes `pos_`, `lemma_`, `is_alpha`, `is_space` read by the source. -/
structure SpacyToken where
  text : List Char
  pos_ : String
  lemma_ : String
  is_alpha : Bool
  is_space : Bool
deriving DecidableEq

/-- A spaCy sentence span: its surface text and its tokens. -/
structure SpacySent where
  text : List Char
  tokens : List SpacyToken
deriving DecidableEq

/-- A parsed spaCy document (`models['nlp'](text)`): the token list (Python
truthiness of a `Doc` is "has at least one token") and the sentence spans. -/
structure SpacyDoc where
  tokens : List SpacyToken
  sents : List SpacySent
deriving DecidableEq

/-- The `vocab_complexity` sub-dictionary produced by
`_analyze_vocabulary_complexity`. -/
structure VocabComplexity where
  avg_word_length : ℚ
  pos_distribution : List (String × ℕ)
  unique_word_ratio : ℚ
deriving DecidableEq

/-- The patterns dictionary produced by `analyze_user_patterns`.
`sentence_length_std` is an `ℝ` because numpy `std` takes a square root. -/
structure UserPatterns where
  avg_sentence_length : ℚ
  sentence_length_std : ℝ
  sentence_lengths : List ℕ
  vocab_complexity : VocabComplexity
  sentence_structures : List String

/-- numpy `mean` of a list of naturals, as an exact rational. -/
def npMean (l : List ℕ) : ℚ :=
  (l.sum : ℚ) / l.length

/-- numpy population standard deviation (`np.std`) of a list of naturals. -/
noncomputable def npStd (l : List ℕ) : ℝ :=
  Real.sqrt (((l.map (fun x => ((x : ℝ) - (l.sum : ℝ) / l.length) ^ 2)).sum) / l.length)

/-- Python integer-to-float true division `a / b`: raises
`ZeroDivisionError` when `b = 0`, modelled as `none`. -/
def pyDivNat (a b : ℕ) : Option ℚ :=
  if b = 0 then none else some ((a : ℚ) / b)

/-- Incrementing a Python counting dict `pos_counts[tag] += 1 / = 1`,
modelled as an insertion-ordered association list. -/
def bumpCount (m : List (String × ℕ)) (k : String) : List (String × ℕ) :=
  if m.any (fun p => p.1 = k) then
    m.map (fun p => if p.1 = k then (p.1, p.2 + 1) else p)
  else m ++ [(k, 1)]

/-- `TextHumanizer._analyze_vocabulary_complexity` (main.py lines 112-127).
The `unique_word_ratio` entry computes
`len(set(lemmas)) / len(alpha tokens) if doc else 0.5`: the guard is the
truthiness of the whole document, so a non-empty document with no
alphabetic tokens performs a division by zero (`none`). -/
def _analyze_vocabulary_complexity (doc : SpacyDoc) : Option VocabComplexity :=
  let alphas := doc.tokens.filter (fun t => t.is_alpha)
  let word_lengths := alphas.map (fun t => t.text.length)
  let pos_counts := doc.tokens.foldl (fun m t => bumpCount m t.pos_) []
  let ratio :=
    if doc.tokens ≠ [] then
      pyDivNat ((alphas.map (fun t => t.lemma_)).dedup.length) alphas.length
    else some 0.5
  match ratio with
  | none => none
  | some r =>
    some { avg_word_length := if word_lengths ≠ [] then npMean word_lengths else 5,
           pos_distribution := pos_counts,
           unique_word_ratio := r }

/-- `TextHumanizer._analyze_sentence_structures` (main.py lines 129-136):
space-joined POS tags of the non-space tokens of each sentence, first 10. -/
def _analyze_sentence_structures (sentences : List SpacySent) : List String :=
  ((sentences.map (fun s =>
      String.intercalate " " ((s.tokens.filter (fun t => !t.is_space)).map (fun t => t.pos_)))).take 10)

/-- `TextHumanizer.analyze_user_patterns` (main.py lines 91-110), applied to
the parsed document of the input text.  Sentence lengths are whitespace
token counts of each sentence's text; mean/std default to 15/5 when there
are no sentences.  Propagates the division-by-zero failure of
`_analyze_vocabulary_complexity`. -/
noncomputable def analyze_user_patterns (doc : SpacyDoc) : Option UserPatterns :=
  let sentence_lengths := doc.sents.map (fun s => (splitWs s.text).length)
  match _analyze_vocabulary_complexity doc with
  | none => none
  | some vc =>
    some { avg_sentence_length := if sentence_lengths ≠ [] then npMean sentence_lengths else 15,
           sentence_length_std := if sentence_lengths ≠ [] then npStd sentence_lengths else 5,
           sentence_lengths := sentence_lengths.take 50,
           vocab_complexity := vc,
           sentence_structures := _analyze_sentence_structures (doc.sents.take 20) }

/-- The fixed replacement table of `vocabulary_adaptation` (main.py lines
195-205), in Python dict insertion order (Python 3.7+ iterates dicts in
insertion order). -/
def vocab_replacements : List (List Char × List Char) :=
  [("utilize".data, "use".data),
   ("facilitate".data, "help".data),
   ("demonstrate".data, "show".data),
   ("implement".data, "do".data),
   ("consequently".data, "so".data),
   ("furthermore".data, "also".data),
   ("nevertheless".data, "but".data),
   ("comprehensive".data, "complete".data)]

/-- `TextHumanizer.vocabulary_adaptation` (main.py lines 190-212): literal
substring replacement of each table entry over the whole text, in table
order.  (The source's `user_patterns` parameter is unused by the body and
is omitted here.) -/
def vocabulary_adaptation (text : List Char) : List Char :=
  vocab_replacements.foldl (fun acc pr => pyReplace acc pr.1 pr.2) text

/-- The fragment list `split_sentences` computed by `_split_sentence`
(main.py line 187) from the decoded model output: split on periods, keep
the pieces whose strip is non-empty, and re-terminate each stripped piece
with a period. -/
def splitClean (result : List Char) : List (List Char) :=
  ((pySplit '.' result).filter (fun s => pyStrip s ≠ [])).map (fun s => pyStrip s ++ ['.'])

/-- `TextHumanizer._split_sentence` (main.py lines 165-188).  The BART call
is opaque; `result` is its decoded output.  Returns the cleaned fragments
when there are more than one, else the original sentence verbatim. -/
def _split_sentence (sentence result : List Char) : List (List Char) :=
  if 1 < (splitClean result).length then splitClean result else [sentence]

/-- The instruction prompt of `authenticity_injection` (main.py line 221). -/
def authPrompt (text : List Char) : List Char :=
  "Rewrite this text to sound more natural and human, with minor imperfections: ".data ++ text

/-- The post-processing of the decoded model output in
`authenticity_injection` (main.py lines 242-244): if the prompt occurs in
the output, remove every occurrence and strip the remainder. -/
def authStripped (text result : List Char) : List Char :=
  if (authPrompt text) <:+: result then
    pyStrip (pyReplace result (authPrompt text) [])
  else result

/-- `TextHumanizer.authenticity_injection` (main.py lines 214-246), with the
T5 call opaque (`result` is the decoded output).  Falls back to the input
text when the processed output is empty (`return result if result else
text`). -/
def authenticity_injection (text result : List Char) : List Char :=
  if authStripped text result ≠ [] then authStripped text result else text

/-- One pass of the loop of `personal_voice_integration` (main.py lines
262-270) over the enumerated period-split fragments.  `n` is the length of
the split list; `r` counts the `np.random.random()` draws made so far, so
`rand r` is the next draw and `choose r` models the `np.random.choice`
index drawn together with it (reduced mod the phrase count, since
`np.random.choice` always returns a list element). -/
def voiceLoop (phrases : List (List Char)) (rand : ℕ → ℚ) (choose : ℕ → ℕ) (n : ℕ) :
    List (ℕ × List Char) → ℕ → List (List Char)
  | [], _ => []
  | (i, sentence) :: rest, r =>
    if pyStrip sentence ≠ [] then
      if i < n - 1 ∧ 0 < phrases.length then
        if rand r < 3 / 10 then
          pyStrip sentence ::
            ((' ' :: phrases.getD (choose r % phrases.length) []) ++ [',']) ::
              voiceLoop phrases rand choose n rest (r + 1)
        else
          pyStrip sentence :: voiceLoop phrases rand choose n rest (r + 1)
      else
        pyStrip sentence :: voiceLoop phrases rand choose n rest r
    else voiceLoop phrases rand choose n rest r

/-- `TextHumanizer.personal_voice_integration` (main.py lines 248-272):
no-op on an empty phrase list, otherwise split on periods, run the
insertion loop, and rejoin with `". "`.  The source reads the phrase list
from `user_patterns.get('common_phrases', [])`; the list itself is the
parameter here. -/
def personal_voice_integration (rand : ℕ → ℚ) (choose : ℕ → ℕ)
    (text : List Char) (common_phrases : List (List Char)) : List Char :=
  if common_phrases = [] then text
  else
    let sentences := pySplit '.' text
    joinWith ". ".data (voiceLoop common_phrases rand choose sentences.length sentences.enum 0)

/-- The Voice Integrator as worded by the claim (refinement reference):
split on periods, and after every non-empty fragment **other than the
last fragment** (`i + 1 < n`) insert, with the 0.3-probability draw, one
phrase of the list; rejoin with `". "`.  To be compared with
`personal_voice_integration`. -/
def voiceClaimLoop (phrases : List (List Char)) (rand : ℕ → ℚ) (choose : ℕ → ℕ) (n : ℕ) :
    List (ℕ × List Char) → ℕ → List (List Char)
  | [], _ => []
  | (i, sentence) :: rest, r =>
    if pyStrip sentence ≠ [] then
      if i + 1 < n then
        if rand r < 3 / 10 then
          pyStrip sentence ::
            ((' ' :: phrases.getD (choose r % phrases.length) []) ++ [',']) ::
              voiceClaimLoop phrases rand choose n rest (r + 1)
        else
          pyStrip sentence :: voiceClaimLoop phrases rand choose n rest (r + 1)
      else
        pyStrip sentence :: voiceClaimLoop phrases rand choose n rest r
    else voiceClaimLoop phrases rand choose n rest r

/-- Claim-worded Voice Integrator (see `voiceClaimLoop`). -/
def voice_integration_claim (rand : ℕ → ℚ) (choose : ℕ → ℕ)
    (text : List Char) (common_phrases : List (List Char)) : List Char :=
  if common_phrases = [] then text
  else
    let sentences := pySplit '.' text
    joinWith ". ".data (voiceClaimLoop common_phrases rand choose sentences.length sentences.enum 0)

/-- Dot product of two embedding vectors (`np.dot`); vectors of equal
length are zipped, as numpy requires. -/
def dotProd : List ℝ → List ℝ → ℝ
  | a :: as, b :: bs => a * b + dotProd as bs
  | _, _ => 0

/-- `np.linalg.norm`: Euclidean norm. -/
noncomputable def npNorm (v : List ℝ) : ℝ :=
  Real.sqrt (dotProd v v)

/-- The cosine similarity computed in `coherence_preservation` (main.py
lines 282-284). -/
noncomputable def cosineSimilarity (a b : List ℝ) : ℝ :=
  dotProd a b / (npNorm a * npNorm b)

/-- `TextHumanizer.coherence_preservation` (main.py lines 274-291).
`encode` is the opaque sentence-transformer embedding. Reverts to the
original text when similarity is below the 0.85 threshold. -/
noncomputable def coherence_preservation (encode : String → List ℝ)
    (original modified : String) : String × ℝ :=
  let similarity := cosineSimilarity (encode original) (encode modified)
  if similarity < 0.85 then (original, similarity) else (modified, similarity)

/-- One event of the `/humanize-text` server-push stream, with `P` the type
of the patterns payload. -/
inductive Event (P : Type) where
  | progress (step : String) (message : String)
  | complete (text : String) (similarity : ℚ) (patterns : P)
  | error (message : String)
  | done
deriving DecidableEq

/-- `HumanizationRequest` (main.py lines 29-34); `user_patterns := none`
models an absent (or falsy) profile. -/
structure HumanizationRequest (P : Type) where
  text : String
  user_id : String
  user_patterns : Option P
  target_style : String
  preserve_meaning : Bool

/-- Step 1 of the generator (main.py lines 327-331): use the supplied
profile if any, otherwise analyze the request text (which may fail). -/
def resolve_user_patterns {P : Type} (analyze : String → Except String P)
    (req : HumanizationRequest P) : Except String P :=
  match req.user_patterns with
  | some p => Except.ok p
  | none => analyze req.text

/-- Is this event an error event? -/
def isErrorEvent {P : Type} : Event P → Bool
  | Event.error _ => true
  | _ => false

/-- Is this event a complete event? -/
def isCompleteEvent {P : Type} : Event P → Bool
  | Event.complete _ _ _ => true
  | _ => false

/-- Is this event a progress event? -/
def isProgressEvent {P : Type} : Event P → Bool
  | Event.progress _ _ => true
  | _ => false

/-- The `generate_humanized_text` async generator of the `/humanize-text`
endpoint (main.py lines 317-369), as the list of emitted events.  The five
transform stages and the coherence gate are opaque parameters returning
`Except` (an exception anywhere inside the `try` block jumps to the
`except` handler, which emits a single error event and ends the stream).
Progress events carry the source's step names and messages; on success the
stream ends with the complete event followed by the `[DONE]` sentinel. -/
def generate_humanized_text {P : Type}
    (analyze : String → Except String P)
    (structural : String → P → Except String String)
    (vocabulary : String → P → Except String String)
    (authenticity : String → Except String String)
    (voice : String → P → Except String String)
    (coherence : String → String → Except String (String × ℚ))
    (req : HumanizationRequest P) : List (Event P) :=
  Event.progress "analyzing" "Analyzing writing patterns..." ::
    match resolve_user_patterns analyze req with
    | Except.error e => [Event.error e]
    | Except.ok user_patterns =>
      Event.progress "structural" "Restructuring sentences..." ::
        match structural req.text user_patterns with
        | Except.error e => [Event.error e]
        | Except.ok t1 =>
          Event.progress "vocabulary" "Adapting vocabulary..." ::
            match vocabulary t1 user_patterns with
            | Except.error e => [Event.error e]
            | Except.ok t2 =>
              Event.progress "authenticity" "Adding natural imperfections..." ::
                match authenticity t2 with
                | Except.error e => [Event.error e]
                | Except.ok t3 =>
                  Event.progress "voice" "Integrating personal voice..." ::
                    match voice t3 user_patterns with
                    | Except.error e => [Event.error e]
                    | Except.ok t4 =>
                      Event.progress "coherence" "Preserving coherence..." ::
                        match coherence req.text t4 with
                        | Except.error e => [Event.error e]
                        | Except.ok fs =>
                          [Event.complete fs.1 fs.2 user_patterns, Event.done]

/-! Concrete instances used by the witnesses and counterexamples below. -/

/-- A pattern analyzer that always succeeds (patterns payload `Unit`). -/
def okAnalyzeU : String → Except String Unit := fun _ => Except.ok ()

/-- A transform stage that succeeds and returns its input unchanged. -/
def okTransformU : String → Unit → Except String String := fun t _ => Except.ok t

/-- An authenticity stage that succeeds and returns its input unchanged. -/
def okAuthU : String → Except String String := fun t => Except.ok t

/-- A structural stage that raises. -/
def failStructuralU : String → Unit → Except String String := fun _ _ => Except.error "boom"

/-- A coherence gate that accepts with similarity 1. -/
def okGateU : String → String → Except String (String × ℚ) := fun _ t => Except.ok (t, 1)

/-- A request that supplies a user-patterns profile. -/
def reqProfileU : HumanizationRequest Unit :=
  { text := "hello", user_id := "u1", user_patterns := some (),
    target_style := "natural", preserve_meaning := true }

/-- A request with no user-patterns profile. -/
def reqPlainU : HumanizationRequest Unit :=
  { text := "hello", user_id := "u1", user_patterns := none,
    target_style := "natural", preserve_meaning := true }

/-- A deterministic embedding giving orthogonal vectors to `"a"` and any
other text (cosine similarity 0). -/
noncomputable def lowSimEncode : String → List ℝ :=
  fun s => if s = "a" then [1, 0] else [0, 1]

/-- A deterministic embedding with a non-zero vector for every text. -/
noncomputable def oneEncode : String → List ℝ := fun _ => [1]

/-- The spaCy token produced for a whitespace-only text: non-alphabetic. -/
def spaceTok : SpacyToken :=
  { text := " ".data, pos_ := "SPACE", lemma_ := " ", is_alpha := false, is_space := true }

/-- The parse of the whitespace-only text `" "`: one whitespace token, one
sentence span containing it — a non-empty document with no alphabetic
tokens. -/
def docWhitespace : SpacyDoc :=
  { tokens := [spaceTok], sents := [{ text := " ".data, tokens := [spaceTok] }] }

/-- The parse of the empty text: no tokens, no sentences. -/
def docEmptyParse : SpacyDoc := { tokens := [], sents := [] }

/-- The all-defaults patterns dictionary the analyzer produces for an empty
parse: mean 15, std 5, word length 5, ratio 0.5. -/
noncomputable def defaultPatterns : UserPatterns :=
  { avg_sentence_length := 15, sentence_length_std := 5, sentence_lengths := [],
    vocab_complexity := { avg_word_length := 5, pos_distribution := [], unique_word_ratio := 0.5 },
    sentence_structures := [] }

/-! Helper lemmas. -/

/-- A replacement pass over a text not containing the pattern is the
identity, whatever the fuel. -/
theorem pyReplaceFuel_no_occurrence (pat rep : List Char) :
    ∀ (fuel : ℕ) (s : List Char), ¬ pat <:+: s → pyReplaceFuel fuel s pat rep = s := by
  intro fuel
  induction fuel with
  | zero => intro s _; rfl
  | succ n ih =>
    intro s hs
    cases s with
    | nil => rfl
    | cons c rest =>
      have hnp : ¬ (pat ≠ [] ∧ pat.isPrefixOf (c :: rest)) := by
        rintro ⟨-, hp⟩
        exact hs (List.isPrefixOf_iff_prefix.mp hp).isInfix
      simp only [pyReplaceFuel, if_neg hnp]
      rw [ih rest (fun hi => hs (List.infix_cons hi))]

/-- Python `replace` on a text not containing the pattern is the identity. -/
theorem pyReplace_no_occurrence {s pat : List Char} (rep : List Char) (h : ¬ pat <:+: s) :
    pyReplace s pat rep = s :=
  pyReplaceFuel_no_occurrence pat rep s.length s h

/-- Folding replacement pairs over a text containing none of the patterns
is the identity. -/
theorem foldl_pyReplace_no_occurrence (prs : List (List Char × List Char)) (s : List Char)
    (h : ∀ pr ∈ prs, ¬ pr.1 <:+: s) :
    prs.foldl (fun acc pr => pyReplace acc pr.1 pr.2) s = s := by
  induction prs with
  | nil => rfl
  | cons p ps ih =>
    simp only [List.foldl_cons]
    rw [pyReplace_no_occurrence p.2 (h p (List.mem_cons_self p ps))]
    exact ih (fun pr hpr => h pr (List.mem_cons_of_mem p hpr))

/-- The dot product of a vector with itself is non-negative. -/
theorem dotProd_self_nonneg (v : List ℝ) : 0 ≤ dotProd v v := by
  induction v with
  | nil => simp [dotProd]
  | cons a t ih =>
    simp only [dotProd]
    exact add_nonneg (mul_self_nonneg a) ih

/-- The dot product of a non-zero vector with itself is positive. -/
theorem dotProd_self_pos {v : List ℝ} (h : ∃ x ∈ v, x ≠ 0) : 0 < dotProd v v := by
  induction v with
  | nil => simp at h
  | cons a t ih =>
    simp only [dotProd]
    rcases h with ⟨x, hx, hx0⟩
    rcases List.mem_cons.mp hx with rfl | hxt
    · exact add_pos_of_pos_of_nonneg (mul_self_pos.mpr hx0) (dotProd_self_nonneg t)
    · exact add_pos_of_nonneg_of_pos (mul_self_nonneg a) (ih ⟨x, hxt, hx0⟩)

/-- The insertion loop agrees with the claim-worded loop as soon as the
phrase list is non-empty: the source guard `i < n - 1 ∧ 0 < |phrases|`
coincides with the claim's "except the last fragment" guard `i + 1 < n`. -/
theorem voiceLoop_eq_claimLoop (phrases : List (List Char)) (rand : ℕ → ℚ) (choose : ℕ → ℕ)
    (hp : 0 < phrases.length) (n : ℕ) :
    ∀ (l : List (ℕ × List Char)) (r : ℕ),
      voiceLoop phrases rand choose n l r = voiceClaimLoop phrases rand choose n l r := by
  intro l
  induction l with
  | nil => intro r; rfl
  | cons p rest ih =>
    intro r
    obtain ⟨i, sentence⟩ := p
    simp only [voiceLoop, voiceClaimLoop]
    have hiff : (i < n - 1 ∧ 0 < phrases.length) ↔ i + 1 < n :=
      ⟨fun hh => by omega, fun hh => ⟨by omega, hp⟩⟩
    by_cases hs : pyStrip sentence ≠ []
    · rw [if_pos hs, if_pos hs]
      by_cases hc : i + 1 < n
      · rw [if_pos (hiff.mpr hc), if_pos hc]
        by_cases hrnd : rand r < 3 / 10
        · rw [if_pos hrnd, if_pos hrnd, ih]
        · rw [if_neg hrnd, if_neg hrnd, ih]
      · rw [if_neg (fun hh => hc (hiff.mp hh)), if_neg hc, ih]
    · rw [if_neg hs, if_neg hs, ih]

/-- When no probability draw fires, the insertion loop returns exactly the
stripped non-empty fragments. -/
theorem voiceLoop_no_fire (phrases : List (List Char)) (rand : ℕ → ℚ) (choose : ℕ → ℕ) (n : ℕ)
    (hr : ∀ k, ¬ rand k < 3 / 10) :
    ∀ (l : List (ℕ × List Char)) (r : ℕ),
      voiceLoop phrases rand choose n l r =
        (l.map (fun p => pyStrip p.2)).filter (fun s => !s.isEmpty) := by
  intro l
  induction l with
  | nil => intro r; rfl
  | cons p rest ih =>
    intro r
    obtain ⟨i, sentence⟩ := p
    simp only [voiceLoop, List.map_cons, List.filter_cons]
    by_cases hs : pyStrip sentence ≠ []
    · have hbe : (!(pyStrip sentence).isEmpty) = true := by
        simpa [List.isEmpty_iff] using hs
      rw [if_pos hs, hbe, if_pos rfl]
      by_cases hc : i < n - 1 ∧ 0 < phrases.length
      · rw [if_pos hc, if_neg (hr r), ih]
      · rw [if_neg hc, ih]
    · have hbe : ¬ ((!(pyStrip sentence).isEmpty) = true) := by
        simpa [List.isEmpty_iff] using hs
      rw [if_neg hs, if_neg hbe, ih]

/-! Claim theorems. -/

/-- C2: `coherence_preservation` returns `(original, similarity)` when the
cosine similarity of the two embeddings is strictly below 0.85 — a total
revert to the untransformed original — and `(modified, similarity)`
otherwise. -/
theorem coherence_gate_branches (encode : String → List ℝ) (original modified : String) :
    (cosineSimilarity (encode original) (encode modified) < 0.85 →
      coherence_preservation encode original modified =
        (original, cosineSimilarity (encode original) (encode modified))) ∧
    (¬ cosineSimilarity (encode original) (encode modified) < 0.85 →
      coherence_preservation encode original modified =
        (modified, cosineSimilarity (encode original) (encode modified))) := by
  constructor <;> intro h <;> simp [coherence_preservation, h]

/-- Witness for C2: an embedding making `"a"` and `"b"` orthogonal has
similarity 0 < 0.85, and the gate returns the original `"a"`. -/
theorem coherence_gate_branches_witness :
    cosineSimilarity (lowSimEncode "a") (lowSimEncode "b") < 0.85 ∧
    coherence_preservation lowSimEncode "a" "b" =
      ("a", cosineSimilarity (lowSimEncode "a") (lowSimEncode "b")) := by
  have h0 : cosineSimilarity (lowSimEncode "a") (lowSimEncode "b") = 0 := by
    simp [cosineSimilarity, lowSimEncode, dotProd]
  refine ⟨by rw [h0]; norm_num, ?_⟩
  exact (coherence_gate_branches lowSimEncode "a" "b").1 (by rw [h0]; norm_num)

/-- C9: when the transformed text equals the original and the (deterministic)
embedding of the original is a non-zero vector, the computed similarity is
exactly 1 and the gate accepts, returning the original text. -/
theorem coherence_gate_identity_sim_one (encode : String → List ℝ) (original : String)
    (h : ∃ x ∈ encode original, x ≠ 0) :
    cosineSimilarity (encode original) (encode original) = 1 ∧
    coherence_preservation encode original original = (original, 1) := by
  have hpos : 0 < dotProd (encode original) (encode original) := dotProd_self_pos h
  have hsim : cosineSimilarity (encode original) (encode original) = 1 := by
    unfold cosineSimilarity npNorm
    rw [Real.mul_self_sqrt hpos.le, div_self hpos.ne']
  refine ⟨hsim, ?_⟩
  simp only [coherence_preservation, hsim]
  rw [if_neg (by norm_num : ¬ (1 : ℝ) < 0.85)]

/-- Witness for C9: the constant embedding `[1]` is non-zero; on equal texts
the similarity is 1 and the gate returns the original. -/
theorem coherence_gate_identity_sim_one_witness :
    oneEncode "x" = [1] ∧
    cosineSimilarity (oneEncode "x") (oneEncode "x") = 1 ∧
    coherence_preservation oneEncode "x" "x" = ("x", 1) := by
  refine ⟨rfl, ?_⟩
  exact coherence_gate_identity_sim_one oneEncode "x" ⟨1, by simp [oneEncode], one_ne_zero⟩

/-- C3 (code bug): on the parse of the whitespace-only text `" "` — a
non-empty document with no alphabetic tokens — `analyze_user_patterns`
raises `ZeroDivisionError` (modelled `none`) instead of returning the
0.5 default, because the `unique_word_ratio` guard tests document
truthiness rather than the alphabetic-token count; on the empty parse the
documented defaults (mean 15, std 5, word length 5, ratio 0.5) are
returned. -/
theorem analyze_user_patterns_zero_division :
    analyze_user_patterns docWhitespace = none ∧
    analyze_user_patterns docEmptyParse = some defaultPatterns :=
  ⟨rfl, rfl⟩

/-- Counterexample to C4: the Vocabulary Adapter is not idempotent.  On
`"neverthelessilize"`, the `nevertheless → but` replacement creates the
new occurrence `"butilize" ⊇ "utilize"`, which a second application
rewrites to `"buse"`. -/
theorem vocabulary_adaptation_not_idempotent :
    vocabulary_adaptation (vocabulary_adaptation "neverthelessilize".data) ≠
      vocabulary_adaptation "neverthelessilize".data := by
  decide

/-- C4 (amended): the Vocabulary Adapter is idempotent on every input whose
once-adapted text contains no occurrence of any of the eight mapped
source words (the replacements themselves contain none of the source
words, but replacement can create an occurrence across boundaries, as the
counterexample shows). -/
theorem vocabulary_adaptation_idempotent_of_clean (t : List Char)
    (h : ∀ pr ∈ vocab_replacements, ¬ pr.1 <:+: vocabulary_adaptation t) :
    vocabulary_adaptation (vocabulary_adaptation t) = vocabulary_adaptation t :=
  foldl_pyReplace_no_occurrence vocab_replacements (vocabulary_adaptation t) h

/-- Witness for amended C4: `"they utilize it"` adapts to `"they use it"`,
which contains no mapped source word, so a second application fixes it. -/
theorem vocabulary_adaptation_idempotent_of_clean_witness :
    vocabulary_adaptation "they utilize it".data = "they use it".data ∧
    vocabulary_adaptation (vocabulary_adaptation "they utilize it".data) =
      vocabulary_adaptation "they utilize it".data :=
  ⟨by decide, vocabulary_adaptation_idempotent_of_clean "they utilize it".data (by decide)⟩

/-- Counterexample to C5: with the opaque model output `"a.b"` for the long
sentence `"aaaa bbbb cccc dddd"`, `_split_sentence` returns the two
fragments `["a.", "b."]`, whose concatenated non-whitespace content length
(4) is far below the original sentence's (16), and which is not the
original sentence either. -/
theorem split_sentence_content_loss :
    ¬ (nonWsLen "aaaa bbbb cccc dddd".data ≤
         nonWsLen (List.flatten (_split_sentence "aaaa bbbb cccc dddd".data "a.b".data)) ∨
       _split_sentence "aaaa bbbb cccc dddd".data "a.b".data =
         ["aaaa bbbb cccc dddd".data]) := by
  decide

/-- C5 (amended): `_split_sentence` returns either the original sentence
verbatim — exactly when splitting the decoded model output on periods
yields at most one non-empty fragment — or at least two fragments of the
model output, each non-empty, trimmed and period-terminated (their content
relates to the model output, not to the original sentence). -/
theorem split_sentence_fragments_or_verbatim (sentence result : List Char) :
    ((splitClean result).length ≤ 1 ∧ _split_sentence sentence result = [sentence]) ∨
    (2 ≤ (_split_sentence sentence result).length ∧
      _split_sentence sentence result = splitClean result ∧
      ∀ f ∈ _split_sentence sentence result, f ≠ [] ∧ f.getLast? = some '.') := by
  by_cases h : 1 < (splitClean result).length
  · right
    have he : _split_sentence sentence result = splitClean result := by
      unfold _split_sentence
      rw [if_pos h]
    refine ⟨by rw [he]; omega, he, ?_⟩
    rw [he]
    intro f hf
    unfold splitClean at hf
    rcases List.mem_map.mp hf with ⟨s, hs, rfl⟩
    exact ⟨by simp, List.getLast?_concat _⟩
  · left
    refine ⟨by omega, ?_⟩
    unfold _split_sentence
    rw [if_neg h]

/-- C6: for every non-empty common-phrase list and every random source,
`personal_voice_integration` coincides with the claim-worded integrator:
split on periods, insert a phrase (0.3-probability draw, arbitrary valid
choice index) only after non-empty fragments other than the last fragment
(`i + 1 < n`) — never after the last one — and rejoin with `". "`. -/
theorem voice_integration_matches_claim (rand : ℕ → ℚ) (choose : ℕ → ℕ)
    (text : List Char) (common_phrases : List (List Char)) (h : common_phrases ≠ []) :
    personal_voice_integration rand choose text common_phrases =
      voice_integration_claim rand choose text common_phrases := by
  simp only [personal_voice_integration, voice_integration_claim, if_neg h]
  exact congrArg (joinWith ". ".data)
    (voiceLoop_eq_claimLoop common_phrases rand choose (List.length_pos.mpr h)
      (pySplit '.' text).length (pySplit '.' text).enum 0)

/-- Witness for C6 at a concrete three-sentence text, a singleton phrase
list and an always-firing random source. -/
theorem voice_integration_matches_claim_witness :
    (["imo".data] : List (List Char)) ≠ [] ∧
    personal_voice_integration (fun _ => 0) (fun _ => 0) "x. y. z".data ["imo".data] =
      voice_integration_claim (fun _ => 0) (fun _ => 0) "x. y. z".data ["imo".data] :=
  ⟨by decide,
   voice_integration_matches_claim (fun _ => 0) (fun _ => 0) "x. y. z".data ["imo".data]
     (by decide)⟩

/-- C10: on runs where no insertion fires, `personal_voice_integration`
returns the non-empty period-separated fragments of the text, each
stripped, rejoined with `". "` — in general not the identity (a trailing
period is dropped and inter-sentence whitespace is normalized). -/
theorem voice_integration_no_fire (rand : ℕ → ℚ) (choose : ℕ → ℕ)
    (text : List Char) (common_phrases : List (List Char))
    (hp : common_phrases ≠ []) (hr : ∀ k, ¬ rand k < 3 / 10) :
    personal_voice_integration rand choose text common_phrases =
      joinWith ". ".data (((pySplit '.' text).map pyStrip).filter (fun s => !s.isEmpty)) := by
  simp only [personal_voice_integration, if_neg hp]
  rw [voiceLoop_no_fire common_phrases rand choose (pySplit '.' text).length hr
    (pySplit '.' text).enum 0]
  rw [show (fun p : ℕ × List Char => pyStrip p.2) = pyStrip ∘ Prod.snd from rfl]
  rw [← List.map_map, List.enum_map_snd]

/-- Witness for C10: with a never-firing random source, `"a. b."` becomes
`"a. b"` — the trailing period is dropped, so the stage is not the
identity. -/
theorem voice_integration_no_fire_witness :
    (["btw".data] : List (List Char)) ≠ [] ∧
    personal_voice_integration (fun _ => 1) (fun _ => 0) "a. b.".data ["btw".data] =
      "a. b".data ∧
    "a. b".data ≠ "a. b.".data :=
  ⟨by decide,
   (voice_integration_no_fire (fun _ => 1) (fun _ => 0) "a. b.".data ["btw".data]
      (by decide) (fun k => by norm_num)).trans (by decide),
   by decide⟩

/-- C8: for a non-empty input text, `authenticity_injection` returns the
pre-injection input whenever the decoded model output, after the
prompt-stripping post-processing, is empty; consequently its result is
never empty. -/
theorem authenticity_injection_fallback (text result : List Char) (h : text ≠ []) :
    (authStripped text result = [] → authenticity_injection text result = text) ∧
    authenticity_injection text result ≠ [] := by
  constructor
  · intro he
    simp [authenticity_injection, he]
  · by_cases he : authStripped text result = []
    · simpa [authenticity_injection, he] using h
    · simp [authenticity_injection, he]

/-- Witness for C8: for input `"hi"` and an empty decoded model output, the
processed output is empty and the stage falls back to `"hi"`. -/
theorem authenticity_injection_fallback_witness :
    ("hi".data ≠ ([] : List Char)) ∧
    authStripped "hi".data [] = [] ∧
    authenticity_injection "hi".data [] = "hi".data ∧
    authenticity_injection "hi".data [] ≠ [] :=
  ⟨by decide, by decide,
   (authenticity_injection_fallback "hi".data [] (by decide)).1 (by decide),
   (authenticity_injection_fallback "hi".data [] (by decide)).2⟩

/-- Counterexample to C1: the `analyzing` progress event is emitted even
when a user-patterns profile is supplied in the request — the generator
yields it before testing `request.user_patterns`; only the analysis
computation is skipped. -/
theorem analyzing_event_despite_profile :
    reqProfileU.user_patterns.isSome = true ∧
    Event.progress "analyzing" "Analyzing writing patterns..." ∈
      generate_humanized_text okAnalyzeU okTransformU okTransformU okAuthU okTransformU
        okGateU reqProfileU :=
  ⟨rfl, by decide⟩

/-- C1 (amended): whenever pattern resolution and all five stages and the
gate succeed, the stream is exactly the progress events in the fixed order
`analyzing, structural, vocabulary, authenticity, voice, coherence`,
followed by the complete event and the `[DONE]` sentinel — with the
`analyzing` progress event always present, whether or not a profile was
supplied (profile-supplied requests skip only the analysis computation,
which the hypothesis on `resolve_user_patterns` covers). -/
theorem humanize_progress_event_order {P : Type}
    (analyze : String → Except String P)
    (structural vocabulary : String → P → Except String String)
    (authenticity : String → Except String String)
    (voice : String → P → Except String String)
    (coherence : String → String → Except String (String × ℚ))
    (req : HumanizationRequest P) (pats : P) (t1 t2 t3 t4 final : String) (sim : ℚ)
    (hA : resolve_user_patterns analyze req = Except.ok pats)
    (h1 : structural req.text pats = Except.ok t1)
    (h2 : vocabulary t1 pats = Except.ok t2)
    (h3 : authenticity t2 = Except.ok t3)
    (h4 : voice t3 pats = Except.ok t4)
    (h5 : coherence req.text t4 = Except.ok (final, sim)) :
    generate_humanized_text analyze structural vocabulary authenticity voice coherence req =
      [Event.progress "analyzing" "Analyzing writing patterns...",
       Event.progress "structural" "Restructuring sentences...",
       Event.progress "vocabulary" "Adapting vocabulary...",
       Event.progress "authenticity" "Adding natural imperfections...",
       Event.progress "voice" "Integrating personal voice...",
       Event.progress "coherence" "Preserving coherence...",
       Event.complete final sim pats, Event.done] := by
  simp [generate_humanized_text, hA, h1, h2, h3, h4, h5]

/-- Witness for amended C1: with all-succeeding stages and no profile, the
stream is the full fixed-order event list. -/
theorem humanize_progress_event_order_witness :
    resolve_user_patterns okAnalyzeU reqPlainU = Except.ok () ∧
    generate_humanized_text okAnalyzeU okTransformU okTransformU okAuthU okTransformU
        okGateU reqPlainU =
      [Event.progress "analyzing" "Analyzing writing patterns...",
       Event.progress "structural" "Restructuring sentences...",
       Event.progress "vocabulary" "Adapting vocabulary...",
       Event.progress "authenticity" "Adding natural imperfections...",
       Event.progress "voice" "Integrating personal voice...",
       Event.progress "coherence" "Preserving coherence...",
       Event.complete "hello" 1 (), Event.done] :=
  ⟨rfl,
   humanize_progress_event_order okAnalyzeU okTransformU okTransformU okAuthU okTransformU
     okGateU reqPlainU () "hello" "hello" "hello" "hello" "hello" 1 rfl rfl rfl rfl rfl rfl⟩

/-- C7: if an error event appears in the stream of a humanize-text request,
it is the unique error event, it is the last emitted event (so no complete
event and no `[DONE]` sentinel ever follows it), and the stream contains
no complete event at all — no partial pipeline result is presented as
complete. -/
theorem humanize_error_event_terminal {P : Type}
    (analyze : String → Except String P)
    (structural vocabulary : String → P → Except String String)
    (authenticity : String → Except String String)
    (voice : String → P → Except String String)
    (coherence : String → String → Except String (String × ℚ))
    (req : HumanizationRequest P) (m : String)
    (h : Event.error m ∈
      generate_humanized_text analyze structural vocabulary authenticity voice coherence req) :
    (generate_humanized_text analyze structural vocabulary authenticity voice coherence
        req).filter isErrorEvent = [Event.error m] ∧
    (generate_humanized_text analyze structural vocabulary authenticity voice coherence
        req).getLast? = some (Event.error m) ∧
    (generate_humanized_text analyze structural vocabulary authenticity voice coherence
        req).filter isCompleteEvent = [] ∧
    Event.done ∉
      generate_humanized_text analyze structural vocabulary authenticity voice coherence req := by
  cases hA : resolve_user_patterns analyze req with
  | error e =>
    simp only [generate_humanized_text, hA] at h ⊢
    simp at h
    subst h
    simp [isErrorEvent, isCompleteEvent, List.filter]
  | ok pats =>
    cases h1 : structural req.text pats with
    | error e =>
      simp only [generate_humanized_text, hA, h1] at h ⊢
      simp at h
      subst h
      simp [isErrorEvent, isCompleteEvent, List.filter]
    | ok t1 =>
      cases h2 : vocabulary t1 pats with
      | error e =>
        simp only [generate_humanized_text, hA, h1, h2] at h ⊢
        simp at h
        subst h
        simp [isErrorEvent, isCompleteEvent, List.filter]
      | ok t2 =>
        cases h3 : authenticity t2 with
        | error e =>
          simp only [generate_humanized_text, hA, h1, h2, h3] at h ⊢
          simp at h
          subst h
          simp [isErrorEvent, isCompleteEvent, List.filter]
        | ok t3 =>
          cases h4 : voice t3 pats with
          | error e =>
            simp only [generate_humanized_text, hA, h1, h2, h3, h4] at h ⊢
            simp at h
            subst h
            simp [isErrorEvent, isCompleteEvent, List.filter]
          | ok t4 =>
            cases h5 : coherence req.text t4 with
            | error e =>
              simp only [generate_humanized_text, hA, h1, h2, h3, h4, h5] at h ⊢
              simp at h
              subst h
              simp [isErrorEvent, isCompleteEvent, List.filter]
            | ok fs =>
              simp only [generate_humanized_text, hA, h1, h2, h3, h4, h5] at h
              simp at h

/-- Witness for C7: a structural stage that raises `"boom"` yields a
stream whose unique, final event is the error event; no complete event and
no `[DONE]` sentinel appear. -/
theorem humanize_error_event_terminal_witness :
    Event.error "boom" ∈
      generate_humanized_text okAnalyzeU failStructuralU okTransformU okAuthU okTransformU
        okGateU reqPlainU ∧
    ((generate_humanized_text okAnalyzeU failStructuralU okTransformU okAuthU okTransformU
        okGateU reqPlainU).filter isErrorEvent = [Event.error "boom"] ∧
      (generate_humanized_text okAnalyzeU failStructuralU okTransformU okAuthU okTransformU
        okGateU reqPlainU).getLast? = some (Event.error "boom") ∧
      (generate_humanized_text okAnalyzeU failStructuralU okTransformU okAuthU okTransformU
        okGateU reqPlainU).filter isCompleteEvent = [] ∧
      Event.done ∉
        generate_humanized_text okAnalyzeU failStructuralU okTransformU okAuthU okTransformU
          okGateU reqPlainU) :=
  ⟨by decide,
   humanize_error_event_terminal okAnalyzeU failStructuralU okTransformU okAuthU okTransformU
     okGateU reqPlainU "boom" (by decide)⟩
